import Mathlib

/-!
A shallow embedding of the image-persistence subsystem of the blog-server
repository (`src/server/images.rs`, `src/error.rs`, `src/api.rs`) together
with the earlier revision of the creation path
(`src/persistence/sql.rs`, `src/routes/posts.rs`).

Modelling conventions:
* Byte buffers are `List Nat`; identifier strings are Lean `String`s.
  UUID strings produced by the store are ASCII, so Rust byte indices and
  Lean character indices coincide on every string the code manipulates.
* External effects are oracles carried in a `World` record: the network
  (`reqwest::get`), the PNG decoder of the `image` crate
  (`ImageReader::with_format(_, ImageFormat::Png).decode()`), the
  filesystem (the set of file paths present on disk, plus an oracle for
  I/O failures of `create_dir_all`/`DynamicImage::save`), and the
  `Uuid::new_v4` generator (a counter into a stream of strings).
* A Rust panic is modelled as `none`: functions that can panic return
  `Option (result × World)`.
* `try_join!` / `tokio::join!` of two operations is modelled by running
  both and combining results; the validation phase reads but never writes
  the world, and the two concurrent saves (resp. deletes) touch distinct
  fresh paths (resp. distinct directories), so the sequentialisation is
  observationally faithful.  `spawn_blocking` work is not cancelled by
  `try_join!` in the source, so on error both effects have still run.
-/

/-- Decoded image contents (`image::DynamicImage`); the pixel data is kept
abstract as the bytes it was decoded from. -/
abbrev DynamicImage := List Nat

/-- `enum AppImageError` of `src/server/images.rs`: the wrapped external
errors (`reqwest::Error`, `ImageError`, `std::io::Error`) are modelled by
their display strings. -/
inductive AppImageError
  | download (err : String)
  | decode (err : String)
  | io (err : String)
deriving DecidableEq, Repr

/-- The external world the image store interacts with.
`fs` is the set of file paths present on disk; `net` is the HTTP client
(`url ↦` body bytes, or the display string of a `reqwest::Error`);
`pngDecode` is the `image` crate's PNG-pinned decoder
(`bytes ↦` decoded image, or the display string of an `ImageError`);
`fsave` reports, per target path, the I/O error (if any) raised while
creating parent directories and writing the PNG; `uuidGen`/`nextUuid`
model the stream of `Uuid::new_v4().to_string()` results. -/
structure World where
  fs : List String
  net : String → Except String (List Nat)
  pngDecode : List Nat → Except String DynamicImage
  fsave : String → Option String
  uuidGen : Nat → String
  nextUuid : Nat

/-- `image_path` of `src/server/images.rs`: the sharded on-disk location
`./images/<dir>/<uuid[0..2]>/<uuid[2..4]>/<uuid>.png`.
The Rust byte-slices `&uuid[0..2]` and `&uuid[2..4]` panic when the
identifier has fewer than 4 characters; the panic is modelled as `none`. -/
def image_path (dir : String) (uuid : String) : Option String :=
  if uuid.length < 4 then none
  else some ("./images/" ++ dir ++ "/" ++ uuid.take 2 ++ "/"
      ++ (uuid.drop 2).take 2 ++ "/" ++ uuid ++ ".png")

/-- `PostImagePath(pub String)` of `src/model.rs`: a post-image identifier,
the canonical string form of a store-generated UUID. -/
structure PostImagePath where
  uuid : String
deriving DecidableEq, Repr

/-- `AvatarImagePath(pub String)` of `src/model.rs`: an avatar-image
identifier, the canonical string form of a store-generated UUID. -/
structure AvatarImagePath where
  uuid : String
deriving DecidableEq, Repr

/-- The `ImagePath` trait of `src/server/images.rs`: construct an
identifier from a freshly minted UUID string, and compute its storage
path. -/
class ImagePath (α : Type) where
  new : String → α
  path : α → Option String

instance : ImagePath PostImagePath where
  new u := ⟨u⟩
  path p := image_path "posts" p.uuid

instance : ImagePath AvatarImagePath where
  new u := ⟨u⟩
  path a := image_path "avatars" a.uuid

/-- `decode` of `src/server/images.rs`: validate that the bytes are a PNG
image; a decoder failure becomes `AppImageError::Decode`. -/
def decode (w : World) (image_bytes : List Nat) :
    Except AppImageError DynamicImage :=
  match w.pngDecode image_bytes with
  | .ok img => .ok img
  | .error e => .error (.decode e)

/-- `download` of `src/server/images.rs`: fetch the bytes at the URL; a
`reqwest::Error` is the error case. -/
def download (w : World) (url : String) : Except String (List Nat) :=
  w.net url

/-- `process_image` of `src/server/images.rs`: validate upload bytes. -/
def process_image (w : World) (bytes : List Nat) :
    Except AppImageError DynamicImage :=
  decode w bytes

/-- `process_avatar` of `src/server/images.rs`: download the URL (failure
becomes `AppImageError::Download`), then validate as PNG. -/
def process_avatar (w : World) (url : String) :
    Except AppImageError DynamicImage :=
  match download w url with
  | .error e => .error (.download e)
  | .ok bytes => decode w bytes

/-- `save` of `src/server/images.rs`: mint a fresh v4 UUID, derive the
sharded path, create parent directories and write the PNG (either I/O
failure is `AppImageError::Io`), and return the kind-typed identifier.
`none` models the panic of the path slicing (never reached for
36-character UUIDs). -/
def save {α : Type} [ImagePath α] (_image : DynamicImage) (w : World) :
    Option (Except AppImageError α × World) :=
  let uuid := w.uuidGen w.nextUuid
  let w' := { w with nextUuid := w.nextUuid + 1 }
  (ImagePath.path (ImagePath.new uuid : α)).map fun path =>
    match w.fsave path with
    | some e => (.error (.io e), w')
    | none => (.ok (ImagePath.new uuid), { w' with fs := path :: w'.fs })

/-- `process_images` of `src/server/images.rs`: the four-way match on the
optional upload bytes and optional avatar URL.  In the both-present arm,
`try_join!` first runs both validations (no filesystem effect; fail-fast
on either error), and only then runs both saves. -/
def process_images (post_image_bytes : Option (List Nat))
    (avatar_url : Option String) (w : World) :
    Option (Except AppImageError (Option PostImagePath × Option AvatarImagePath)
      × World) :=
  match post_image_bytes, avatar_url with
  | none, none => some (.ok (none, none), w)
  | some post_image, none =>
    match process_image w post_image with
    | .error e => some (.error e, w)
    | .ok image =>
      (save (α := PostImagePath) image w).map fun (r, w') =>
        match r with
        | .ok image_path => (.ok (some image_path, none), w')
        | .error e => (.error e, w')
  | none, some avatar_url =>
    match process_avatar w avatar_url with
    | .error e => some (.error e, w)
    | .ok avatar =>
      (save (α := AvatarImagePath) avatar w).map fun (r, w') =>
        match r with
        | .ok avatar_path => (.ok (none, some avatar_path), w')
        | .error e => (.error e, w')
  | some post_image, some avatar_url =>
    match process_image w post_image, process_avatar w avatar_url with
    | .error e, _ => some (.error e, w)
    | .ok _, .error e => some (.error e, w)
    | .ok image, .ok avatar =>
      (save (α := PostImagePath) image w).bind fun (r1, w1) =>
      (save (α := AvatarImagePath) avatar w1).map fun (r2, w2) =>
        match r1, r2 with
        | .ok image_path, .ok avatar_path =>
          (.ok (some image_path, some avatar_path), w2)
        | .error e, _ => (.error e, w2)
        | .ok _, .error e => (.error e, w2)

/-- `delete` of `src/server/images.rs`: `None` is a no-op success; for a
present identifier, `std::fs::remove_file` at the derived path succeeds
iff the file exists (the OS not-found message is modelled by an
uninterpreted constant), and its failure is `AppImageError::Io`. -/
def delete {α : Type} [ImagePath α] (image_uuid : Option α) (w : World) :
    Option (Except AppImageError Unit × World) :=
  match image_uuid with
  | none => some (.ok (), w)
  | some image =>
    (ImagePath.path image).map fun path =>
      if path ∈ w.fs then (.ok (), { w with fs := w.fs.erase path })
      else (.error (.io "No such file or directory"), w)

/-- `load` of `src/server/images.rs`: read the file at the derived path;
a missing file is `AppImageError::Io`. -/
def load {α : Type} [ImagePath α] (image_uuid : α) (w : World) :
    Option (Except AppImageError Unit) :=
  (ImagePath.path image_uuid).map fun path =>
    if path ∈ w.fs then .ok () else .error (.io "No such file or directory")

/-- `BlogPost` of `src/model.rs` (the fields the deletion path reads):
a persisted post row carrying the optional image identifiers.
`posted_on` (a `time::Date`) is modelled as an abstract day number. -/
structure BlogPost where
  id : Int
  posted_on : Nat
  text : String
  username : String
  image_uuid : Option PostImagePath
  avatar_uuid : Option AvatarImagePath
deriving DecidableEq, Repr

/-- `delete_blog_post` of `src/api.rs`: delete the post row (the database
is an oracle `post_id ↦` deleted row or a `DatabaseError` display string,
propagated via `?`), then `tokio::join!` the two image deletions and
discard both results with `let _ = …`, returning `Ok(())`.  The two
deletes target distinct directories (`posts` vs `avatars`), so running
them in sequence is faithful to the concurrent join. -/
def delete_blog_post (db : Int → Except String BlogPost) (post_id : Int)
    (w : World) : Option (Except String Unit × World) :=
  match db post_id with
  | .error e => some (.error e, w)
  | .ok deleted =>
    (delete deleted.image_uuid w).bind fun (_r1, w1) =>
    (delete deleted.avatar_uuid w1).map fun (_r2, w2) =>
      (.ok (), w2)

/-- `enum AppError` of `src/error.rs`: the wrapped errors
(`DatabaseError`, `std::io::Error`) are modelled by their display
strings. -/
inductive AppError
  | databaseError (err : String)
  | imageError (err : String)
deriving DecidableEq, Repr

/-- `impl IntoResponse for AppError` in `src/error.rs`: the HTTP response
is modelled as its status code paired with the `message` field of the
serialized `ErrorResponse` body.  A `DatabaseError` becomes 500 with a
fixed generic message; an `ImageError` becomes 400 (`BAD_REQUEST`) with
`format!("{}", err)` — the wrapped error's own display string — as the
body. -/
def AppError.into_response : AppError → Nat × String
  | .databaseError _ =>
    (500, "Something went wrong on our end. Sorry about that!")
  | .imageError err => (400, err)

/-- The on-disk layout exactly as §6 of the spec states it:
`./images/{posts|avatars}/<first2hex>/<next2hex>/<uuid>.png`.
Stated from the spec's words (not from the source) to compare the
source's `image_path` against it. -/
def derive_path_spec (kind_dir : String) (u : String) : String :=
  "./images/" ++ kind_dir ++ "/" ++ u.take 2 ++ "/" ++ (u.drop 2).take 2
    ++ "/" ++ u ++ ".png"

namespace SqlRev

/-- `BlogPostCreateRequest` of `src/persistence/model.rs`: the creation
request of the earlier (routes/sql) revision, carrying an image URL and
an avatar URL. -/
structure BlogPostCreateRequest where
  text : String
  username : String
  image_url : Option String
  avatar_url : Option String
deriving DecidableEq, Repr

/-- `InsertBlogPost` of `src/persistence/model.rs`: the row the earlier
revision inserts; the identifiers are plain optional strings. -/
structure InsertBlogPost where
  posted_on : Nat
  text : String
  username : String
  image_uuid : Option String
  avatar_uuid : Option String
deriving DecidableEq, Repr

/-- `Database::save` of `src/persistence/sql.rs` (earlier revision):
builds the `InsertBlogPost` values — minting `Uuid::new_v4().to_string()`
for `image_uuid` precisely when `image_url` is present, and again for
`avatar_uuid` when `avatar_url` is present (struct fields are evaluated
in that order) — and inserts them, returning the inserted row.  The
diesel SQL insert is external; it is modelled as returning the inserted
values.  No download, no decode and no filesystem write occurs: the
function does not touch `fs`, `net`, `pngDecode` or `fsave`. -/
def Database.save (today : Nat) (post : BlogPostCreateRequest) (w : World) :
    InsertBlogPost × World :=
  let (image_uuid, w1) :=
    match post.image_url with
    | none => (none, w)
    | some _ =>
      (some (w.uuidGen w.nextUuid), { w with nextUuid := w.nextUuid + 1 })
  let (avatar_uuid, w2) :=
    match post.avatar_url with
    | none => (none, w1)
    | some _ =>
      (some (w1.uuidGen w1.nextUuid), { w1 with nextUuid := w1.nextUuid + 1 })
  ({ posted_on := today, text := post.text, username := post.username,
     image_uuid := image_uuid, avatar_uuid := avatar_uuid }, w2)

/-- `create_post` of `src/routes/posts.rs` (earlier revision): persist
the request via `Database::save` and answer `201 Created` with the
persisted post. -/
def create_post (today : Nat) (req : BlogPostCreateRequest) (w : World) :
    (Nat × InsertBlogPost) × World :=
  let (post, w') := Database.save today req w
  ((201, post), w')

end SqlRev

/-- A concrete sample world exercising the definitions: the decoder accepts
exactly the two buffers `[1, 2]` and `[7, 7]`, one URL is reachable and
serves `[7, 7]`, the disk starts empty and accepts every write, and the
UUID stream begins with two distinct 36-character UUID strings. -/
def wEx : World where
  fs := []
  net := fun url =>
    if url = "http://pics.example/avatar.png" then .ok [7, 7]
    else .error "error sending request"
  pngDecode := fun bytes =>
    if bytes = [1, 2] ∨ bytes = [7, 7] then .ok bytes
    else .error "Format error decoding Png"
  fsave := fun _ => none
  uuidGen := fun n =>
    if n = 0 then "123e4567-e89b-12d3-a456-426614174000"
    else "00000000-0000-4000-8000-000000000000"
  nextUuid := 0

/-- A concrete database oracle: post `1` exists and owned a post image
whose file was never saved; every other id yields a `DatabaseError`. -/
def dbEx : Int → Except String BlogPost := fun post_id =>
  if post_id = 1 then
    .ok { id := 1, posted_on := 0, text := "hello", username := "ada",
          image_uuid := some ⟨"123e4567-e89b-12d3-a456-426614174000"⟩,
          avatar_uuid := none }
  else .error "SQL error: not found"

/-! ## Theorems -/

/-- Helper: a sharded path exists exactly when the identifier has at least
four characters. -/
theorem image_path_isSome_of_length {dir u : String} (h : 4 ≤ u.length) :
    ∃ p, image_path dir u = some p :=
  ⟨"./images/" ++ dir ++ "/" ++ u.take 2 ++ "/" ++ (u.drop 2).take 2
      ++ "/" ++ u ++ ".png",
   by simp [image_path, Nat.not_lt.mpr h]⟩

/-- C2: for every store-generated identifier `u` (at least 4 characters;
store-minted UUID strings have 36), the derived storage locations are
`./images/posts/<u[0:2]>/<u[2:4]>/<u>.png` for the post kind and
`./images/avatars/<u[0:2]>/<u[2:4]>/<u>.png` for the avatar kind, matching
the spec's layout `derive_path_spec`; the computation is a pure function
of `(kind, u)` (hence deterministic across repeated calls), and changing
the kind while holding `u` fixed changes only the directory prefix
(`posts` vs `avatars`), never the shard-and-filename suffix. -/
theorem c2_image_path_format (u : String) (h : 4 ≤ u.length) :
    ImagePath.path (⟨u⟩ : PostImagePath) = some (derive_path_spec "posts" u) ∧
    ImagePath.path (⟨u⟩ : AvatarImagePath) = some (derive_path_spec "avatars" u) ∧
    ∃ shard,
      ImagePath.path (⟨u⟩ : PostImagePath) = some ("./images/posts/" ++ shard) ∧
      ImagePath.path (⟨u⟩ : AvatarImagePath) = some ("./images/avatars/" ++ shard) ∧
      shard = u.take 2 ++ "/" ++ (u.drop 2).take 2 ++ "/" ++ u ++ ".png" := by
  have h4 : ¬ u.length < 4 := Nat.not_lt.mpr h
  refine ⟨by simp [ImagePath.path, image_path, derive_path_spec, h4],
    by simp [ImagePath.path, image_path, derive_path_spec, h4],
    u.take 2 ++ "/" ++ (u.drop 2).take 2 ++ "/" ++ u ++ ".png", ?_, ?_, rfl⟩
  · simp only [ImagePath.path, image_path, h4, if_false]
    simp only [← String.append_assoc]
    rw [show "./images/" ++ "posts" ++ "/" = "./images/posts/" from rfl]
  · simp only [ImagePath.path, image_path, h4, if_false]
    simp only [← String.append_assoc]
    rw [show "./images/" ++ "avatars" ++ "/" = "./images/avatars/" from rfl]

/-- C2 witness: the format at a concrete 36-character UUID. -/
theorem c2_image_path_format_witness :
    ImagePath.path (⟨"123e4567-e89b-12d3-a456-426614174000"⟩ : PostImagePath)
      = some (derive_path_spec "posts" "123e4567-e89b-12d3-a456-426614174000") ∧
    ImagePath.path (⟨"123e4567-e89b-12d3-a456-426614174000"⟩ : AvatarImagePath)
      = some (derive_path_spec "avatars" "123e4567-e89b-12d3-a456-426614174000") ∧
    ∃ shard,
      ImagePath.path (⟨"123e4567-e89b-12d3-a456-426614174000"⟩ : PostImagePath)
        = some ("./images/posts/" ++ shard) ∧
      ImagePath.path (⟨"123e4567-e89b-12d3-a456-426614174000"⟩ : AvatarImagePath)
        = some ("./images/avatars/" ++ shard) ∧
      shard = "123e4567-e89b-12d3-a456-426614174000".take 2 ++ "/"
        ++ ("123e4567-e89b-12d3-a456-426614174000".drop 2).take 2 ++ "/"
        ++ "123e4567-e89b-12d3-a456-426614174000" ++ ".png" :=
  c2_image_path_format "123e4567-e89b-12d3-a456-426614174000" (by decide)

/-- C8: path derivation panics (modelled as `none`) on every identifier
shorter than 4 characters, and never panics on a 36-character
store-generated UUID string: the two 2-character slices are in bounds and
a path is produced. -/
theorem c8_image_path_precondition (dir u : String) :
    (u.length < 4 → image_path dir u = none) ∧
    (u.length = 36 → ∃ p, image_path dir u = some p) := by
  constructor
  · intro h
    simp [image_path, h]
  · intro h
    exact image_path_isSome_of_length (by omega)

/-- C8 witness: a 2-character identifier panics; a concrete 36-character
UUID yields a path. -/
theorem c8_image_path_precondition_witness :
    image_path "posts" "ab" = none ∧
    ∃ p, image_path "posts" "123e4567-e89b-12d3-a456-426614174000" = some p :=
  ⟨(c8_image_path_precondition "posts" "ab").1 (by decide),
   (c8_image_path_precondition "posts"
      "123e4567-e89b-12d3-a456-426614174000").2 (by decide)⟩

/-- C4 counterexample: at the concrete I/O error
`No such file or directory (os error 2)`, the API error mapping of
`src/error.rs` produces status 400 — not an internal-error (500)
response — and its body is exactly the raw I/O error message, refuting
both halves of the claim for the `IoError` class. -/
theorem c4_into_response_counterexample :
    (AppError.imageError "No such file or directory (os error 2)").into_response
      = (400, "No such file or directory (os error 2)") ∧
    ¬ ((AppError.imageError
          "No such file or directory (os error 2)").into_response.1 = 500 ∧
       (AppError.imageError
          "No such file or directory (os error 2)").into_response.2
          ≠ "No such file or directory (os error 2)") := by
  exact ⟨rfl, by decide⟩

/-- C4 amended: the API error mapping distinguishes only database errors
from image errors.  A `DatabaseError` becomes a 500 internal-error
response whose body is a fixed generic message independent of the error;
an `ImageError` — which wraps a `std::io::Error`, so in particular every
I/O failure routed through it — becomes a 400 bad-request response whose
body is the wrapped error's raw display message, leaking it to the
caller. -/
theorem c4_into_response_mapping (m m' : String) :
    (AppError.databaseError m).into_response
      = (500, "Something went wrong on our end. Sorry about that!") ∧
    (AppError.databaseError m).into_response
      = (AppError.databaseError m').into_response ∧
    (AppError.imageError m).into_response = (400, m) :=
  ⟨rfl, rfl, rfl⟩

/-- Helper: the post-image instance computes its path in `posts`. -/
theorem path_post_def (p : PostImagePath) :
    ImagePath.path p = image_path "posts" p.uuid := rfl

/-- Helper: the avatar-image instance computes its path in `avatars`. -/
theorem path_avatar_def (a : AvatarImagePath) :
    ImagePath.path a = image_path "avatars" a.uuid := rfl

/-- Helper: the post-image instance wraps the minted UUID string. -/
theorem new_post_def (u : String) :
    (ImagePath.new u : PostImagePath) = ⟨u⟩ := rfl

/-- Helper: the avatar-image instance wraps the minted UUID string. -/
theorem new_avatar_def (u : String) :
    (ImagePath.new u : AvatarImagePath) = ⟨u⟩ := rfl

/-- C1: in the both-present arm of `process_images`, a validation failure
of either input (a decode failure of the upload, or a download/decode
failure of the avatar) makes the whole call return that error with the
world unchanged — in particular no file has been written to disk for
either input, since saving begins only after both validations succeed. -/
theorem c1_validation_failure_aborts_all (bytes : List Nat) (url : String)
    (w : World) (e : AppImageError) :
    (process_image w bytes = .error e →
      process_images (some bytes) (some url) w = some (.error e, w)) ∧
    (∀ img, process_image w bytes = .ok img →
      process_avatar w url = .error e →
      process_images (some bytes) (some url) w = some (.error e, w)) := by
  constructor
  · intro h
    simp [process_images, h]
  · intro img h1 h2
    simp [process_images, h1, h2]

/-- C1 witness: an invalid upload next to a valid avatar URL fails with
the decode error and writes nothing; a valid upload next to an
unreachable URL fails with the download error and writes nothing. -/
theorem c1_validation_failure_aborts_all_witness :
    process_images (some [9]) (some "http://pics.example/avatar.png") wEx
      = some (.error (.decode "Format error decoding Png"), wEx) ∧
    process_images (some [1, 2]) (some "http://dead.example/x") wEx
      = some (.error (.download "error sending request"), wEx) :=
  ⟨(c1_validation_failure_aborts_all [9] "http://pics.example/avatar.png" wEx
      (.decode "Format error decoding Png")).1 rfl,
   (c1_validation_failure_aborts_all [1, 2] "http://dead.example/x" wEx
      (.download "error sending request")).2 [1, 2] rfl rfl⟩

/-- C3: `process_images` maps the four input combinations as specified:
both inputs absent returns `Ok((None, None))` at once with the world
untouched (no I/O); and every successful call returns `Some` in exactly
the components whose input was present. -/
theorem c3_presence_shape (post_image_bytes : Option (List Nat))
    (avatar_url : Option String) (w : World)
    (r : Option PostImagePath × Option AvatarImagePath) (w' : World) :
    process_images none none w = some (.ok (none, none), w) ∧
    (process_images post_image_bytes avatar_url w = some (.ok r, w') →
      r.1.isSome = post_image_bytes.isSome ∧ r.2.isSome = avatar_url.isSome) := by
  refine ⟨rfl, ?_⟩
  intro h
  rcases post_image_bytes with _ | bytes <;> rcases avatar_url with _ | url
  · simp [process_images] at h
    obtain ⟨h1, -⟩ := h
    simp [← h1]
  · cases hpa : process_avatar w url with
    | error e => simp [process_images, hpa] at h
    | ok av =>
      cases hp : image_path "avatars" (w.uuidGen w.nextUuid) with
      | none =>
        simp [process_images, hpa, save, path_avatar_def, new_avatar_def, hp] at h
      | some p =>
        cases hf : w.fsave p with
        | some e =>
          simp [process_images, hpa, save, path_avatar_def, new_avatar_def, hp, hf] at h
        | none =>
          simp [process_images, hpa, save, path_avatar_def, new_avatar_def, hp, hf] at h
          obtain ⟨h1, -⟩ := h
          simp [← h1]
  · cases hpi : process_image w bytes with
    | error e => simp [process_images, hpi] at h
    | ok img =>
      cases hp : image_path "posts" (w.uuidGen w.nextUuid) with
      | none =>
        simp [process_images, hpi, save, path_post_def, new_post_def, hp] at h
      | some p =>
        cases hf : w.fsave p with
        | some e =>
          simp [process_images, hpi, save, path_post_def, new_post_def, hp, hf] at h
        | none =>
          simp [process_images, hpi, save, path_post_def, new_post_def, hp, hf] at h
          obtain ⟨h1, -⟩ := h
          simp [← h1]
  · cases hpi : process_image w bytes with
    | error e => simp [process_images, hpi] at h
    | ok img =>
      cases hpa : process_avatar w url with
      | error e => simp [process_images, hpi, hpa] at h
      | ok av =>
        cases hp1 : image_path "posts" (w.uuidGen w.nextUuid) with
        | none =>
          simp [process_images, hpi, hpa, save, path_post_def, new_post_def, hp1] at h
        | some p1 =>
          cases hf1 : w.fsave p1 with
          | some e =>
            simp [process_images, hpi, hpa, save, path_post_def, new_post_def,
              path_avatar_def, new_avatar_def, hp1, hf1] at h
          | none =>
            cases hp2 : image_path "avatars" (w.uuidGen (w.nextUuid + 1)) with
            | none =>
              simp [process_images, hpi, hpa, save, path_post_def, new_post_def,
                path_avatar_def, new_avatar_def, hp1, hf1, hp2] at h
            | some p2 =>
              cases hf2 : w.fsave p2 with
              | some e =>
                simp [process_images, hpi, hpa, save, path_post_def, new_post_def,
                  path_avatar_def, new_avatar_def, hp1, hf1, hp2, hf2] at h
              | none =>
                simp [process_images, hpi, hpa, save, path_post_def, new_post_def,
                  path_avatar_def, new_avatar_def, hp1, hf1, hp2, hf2] at h
                obtain ⟨h1, -⟩ := h
                simp [← h1]

/-- C3 witness: a successful both-present call on the sample world yields
`Some` in both components, matching the presence of both inputs. -/
theorem c3_presence_shape_witness :
    (some (⟨"123e4567-e89b-12d3-a456-426614174000"⟩ : PostImagePath)).isSome
      = (some [1, 2] : Option (List Nat)).isSome ∧
    (some (⟨"00000000-0000-4000-8000-000000000000"⟩ : AvatarImagePath)).isSome
      = (some "http://pics.example/avatar.png" : Option String).isSome :=
  (c3_presence_shape (some [1, 2]) (some "http://pics.example/avatar.png") wEx
    (some ⟨"123e4567-e89b-12d3-a456-426614174000"⟩,
     some ⟨"00000000-0000-4000-8000-000000000000"⟩)
    { wEx with
      fs := ["./images/avatars/00/00/00000000-0000-4000-8000-000000000000.png",
             "./images/posts/12/3e/123e4567-e89b-12d3-a456-426614174000.png"],
      nextUuid := 2 }).2 (by rfl)

/-- C5: a buffer the PNG decoder rejects makes the direct-upload path fail
with `DecodeError`; on the remote-avatar path a fetch failure yields
`DownloadError`, and on fetch success the avatar is decoded exactly as the
direct-upload path decodes the downloaded bytes — the same failure mode. -/
theorem c5_decode_and_download_modes (w : World) (bytes : List Nat)
    (url : String) (e : String) :
    (w.pngDecode bytes = .error e →
      process_images (some bytes) none w = some (.error (.decode e), w)) ∧
    (w.net url = .error e →
      process_images none (some url) w = some (.error (.download e), w)) ∧
    (∀ bts, w.net url = .ok bts →
      process_avatar w url = process_image w bts) := by
  refine ⟨?_, ?_, ?_⟩
  · intro h
    simp [process_images, process_image, decode, h]
  · intro h
    simp [process_images, process_avatar, download, h]
  · intro bts h
    simp [process_avatar, download, process_image, h]

/-- C5 witness: concrete decode failure, download failure, and
download-success agreement with the direct path. -/
theorem c5_decode_and_download_modes_witness :
    process_images (some [9]) none wEx
      = some (.error (.decode "Format error decoding Png"), wEx) ∧
    process_images none (some "http://dead.example/x") wEx
      = some (.error (.download "error sending request"), wEx) ∧
    process_avatar wEx "http://pics.example/avatar.png"
      = process_image wEx [7, 7] :=
  ⟨(c5_decode_and_download_modes wEx [9] "http://dead.example/x"
      "Format error decoding Png").1 rfl,
   (c5_decode_and_download_modes wEx [9] "http://dead.example/x"
      "error sending request").2.1 rfl,
   (c5_decode_and_download_modes wEx [9] "http://pics.example/avatar.png"
      "error sending request").2.2 [7, 7] rfl⟩

/-- C6: `delete` on an absent identifier always succeeds with no
filesystem effect; on a present identifier whose file is missing at the
derived path, removal fails and `delete` returns the `IoError` to its
direct caller. -/
theorem c6_delete_contract {α : Type} [ImagePath α] (w : World) (i : α)
    (p : String) (hpath : ImagePath.path i = some p) (habs : p ∉ w.fs) :
    delete (α := α) none w = some (.ok (), w) ∧
    delete (some i) w = some (.error (.io "No such file or directory"), w) := by
  refine ⟨rfl, ?_⟩
  simp [delete, hpath, habs]

/-- C6 witness: deleting an absent identifier on the sample world is a
no-op success; deleting a never-saved identifier returns the I/O error. -/
theorem c6_delete_contract_witness :
    delete (α := PostImagePath) none wEx = some (.ok (), wEx) ∧
    delete (some (⟨"123e4567-e89b-12d3-a456-426614174000"⟩ : PostImagePath)) wEx
      = some (.error (.io "No such file or directory"), wEx) :=
  c6_delete_contract wEx ⟨"123e4567-e89b-12d3-a456-426614174000"⟩
    "./images/posts/12/3e/123e4567-e89b-12d3-a456-426614174000.png"
    (by rfl) (by simp [wEx])

/-- Helper: `delete` never panics when every present identifier's path is
derivable. -/
theorem delete_total {α : Type} [ImagePath α] (o : Option α) (w : World)
    (h : ∀ i ∈ o, ∃ p, ImagePath.path i = some p) :
    ∃ r w', delete o w = some (r, w') := by
  cases o with
  | none => exact ⟨.ok (), w, rfl⟩
  | some i =>
    obtain ⟨p, hp⟩ := h i (by simp)
    by_cases hmem : p ∈ w.fs
    · exact ⟨.ok (), { w with fs := w.fs.erase p }, by simp [delete, hp, hmem]⟩
    · exact ⟨.error (.io "No such file or directory"), w,
        by simp [delete, hp, hmem]⟩

/-- C7: in the combined post-deletion operation, once the database delete
returns the removed row, both image deletes are issued and their results
discarded: whatever each delete returns — success or `IoError` — the
operation answers `Ok(())`. -/
theorem c7_combined_delete_always_succeeds
    (db : Int → Except String BlogPost) (post_id : Int) (w : World)
    (deleted : BlogPost) (hdb : db post_id = .ok deleted)
    (hi : ∀ i ∈ deleted.image_uuid, 4 ≤ i.uuid.length)
    (ha : ∀ a ∈ deleted.avatar_uuid, 4 ≤ a.uuid.length) :
    ∃ r1 w1 r2 w2,
      delete deleted.image_uuid w = some (r1, w1) ∧
      delete deleted.avatar_uuid w1 = some (r2, w2) ∧
      delete_blog_post db post_id w = some (.ok (), w2) := by
  have hi' : ∀ i ∈ deleted.image_uuid, ∃ p, ImagePath.path i = some p := by
    intro i hmem
    rw [path_post_def]
    exact image_path_isSome_of_length (hi i hmem)
  have ha' : ∀ a ∈ deleted.avatar_uuid, ∃ p, ImagePath.path a = some p := by
    intro a hmem
    rw [path_avatar_def]
    exact image_path_isSome_of_length (ha a hmem)
  obtain ⟨r1, w1, h1⟩ := delete_total deleted.image_uuid w hi'
  obtain ⟨r2, w2, h2⟩ := delete_total deleted.avatar_uuid w1 ha'
  exact ⟨r1, w1, r2, w2, h1, h2, by simp [delete_blog_post, hdb, h1, h2]⟩

/-- C7 witness: deleting post `1`, whose image file was never saved (so
its low-level delete returns `IoError`), still reports overall success. -/
theorem c7_combined_delete_always_succeeds_witness :
    ∃ r1 w1 r2 w2,
      delete (some (⟨"123e4567-e89b-12d3-a456-426614174000"⟩ : PostImagePath))
        wEx = some (r1, w1) ∧
      delete (none : Option AvatarImagePath) w1 = some (r2, w2) ∧
      delete_blog_post dbEx 1 wEx = some (.ok (), w2) :=
  c7_combined_delete_always_succeeds dbEx 1 wEx
    { id := 1, posted_on := 0, text := "hello", username := "ada",
      image_uuid := some ⟨"123e4567-e89b-12d3-a456-426614174000"⟩,
      avatar_uuid := none }
    (by rfl)
    (fun i hmem => by
      simp [Option.mem_def] at hmem
      subst hmem
      decide)
    (fun a hmem => by simp at hmem)

/-- Helper: a successfully derived path is the kind directory under
`./images/` followed by the shard-and-filename suffix. -/
theorem image_path_shard (dir u p : String) (h : image_path dir u = some p) :
    p = "./images/" ++ dir ++ "/"
      ++ (u.take 2 ++ "/" ++ (u.drop 2).take 2 ++ "/" ++ u ++ ".png") := by
  by_cases h4 : u.length < 4
  · simp [image_path, h4] at h
  · simp [image_path, h4] at h
    rw [← h]
    simp [← String.append_assoc]

/-- Helper: nothing under `./images/posts/` coincides with anything under
`./images/avatars/`. -/
theorem posts_ne_avatars (s1 s2 : String) :
    "./images/posts/" ++ s1 ≠ "./images/avatars/" ++ s2 := by
  intro h
  have hd : "./images/posts/".data ++ s1.data
      = "./images/avatars/".data ++ s2.data := by
    have h2 := congrArg String.data h
    rw [String.data_append, String.data_append] at h2
    exact h2
  have t1 : ("./images/posts/".data ++ s1.data).take 15
      = "./images/posts/".data :=
    List.take_left' (by decide)
  have t2 : ("./images/avatars/".data ++ s2.data).take 15
      = "./images/avatars/".data.take 15 :=
    List.take_append_of_le_length (by decide)
  rw [hd, t2] at t1
  exact absurd t1 (by decide)

/-- C9: when `process_images` with both inputs present returns success,
the two freshly minted identifiers are distinct (assuming only that the
UUID generator did not collide on two consecutive draws, the UUID-v4
guarantee), their derived paths differ, and both files are on disk in the
resulting world. -/
theorem c9_success_distinct_and_saved (bytes : List Nat) (url : String)
    (w : World) (pi : PostImagePath) (av : AvatarImagePath) (w' : World)
    (hfresh : w.uuidGen w.nextUuid ≠ w.uuidGen (w.nextUuid + 1))
    (hok : process_images (some bytes) (some url) w
      = some (.ok (some pi, some av), w')) :
    pi.uuid ≠ av.uuid ∧
    ∃ p1 p2, ImagePath.path pi = some p1 ∧ ImagePath.path av = some p2 ∧
      p1 ≠ p2 ∧ p1 ∈ w'.fs ∧ p2 ∈ w'.fs := by
  cases hpi : process_image w bytes with
  | error e => simp [process_images, hpi] at hok
  | ok img =>
  cases hpa : process_avatar w url with
  | error e => simp [process_images, hpi, hpa] at hok
  | ok av2 =>
  cases hp1 : image_path "posts" (w.uuidGen w.nextUuid) with
  | none =>
    simp [process_images, hpi, hpa, save, path_post_def, new_post_def, hp1] at hok
  | some p1 =>
  cases hf1 : w.fsave p1 with
  | some e =>
    simp [process_images, hpi, hpa, save, path_post_def, new_post_def,
      path_avatar_def, new_avatar_def, hp1, hf1] at hok
  | none =>
  cases hp2 : image_path "avatars" (w.uuidGen (w.nextUuid + 1)) with
  | none =>
    simp [process_images, hpi, hpa, save, path_post_def, new_post_def,
      path_avatar_def, new_avatar_def, hp1, hf1, hp2] at hok
  | some p2 =>
  cases hf2 : w.fsave p2 with
  | some e =>
    simp [process_images, hpi, hpa, save, path_post_def, new_post_def,
      path_avatar_def, new_avatar_def, hp1, hf1, hp2, hf2] at hok
  | none =>
  simp [process_images, hpi, hpa, save, path_post_def, new_post_def,
    path_avatar_def, new_avatar_def, hp1, hf1, hp2, hf2] at hok
  obtain ⟨⟨hpi2, hav2⟩, hw⟩ := hok
  subst hw
  refine ⟨?_, p1, p2, ?_, ?_, ?_, by simp, by simp⟩
  · rw [← hpi2, ← hav2]
    exact hfresh
  · rw [← hpi2, path_post_def]
    exact hp1
  · rw [← hav2, path_avatar_def]
    exact hp2
  · have e1 := image_path_shard _ _ _ hp1
    have e2 := image_path_shard _ _ _ hp2
    rw [e1, e2,
      show "./images/" ++ "posts" ++ "/" = "./images/posts/" from rfl,
      show "./images/" ++ "avatars" ++ "/" = "./images/avatars/" from rfl]
    exact posts_ne_avatars _ _

/-- C9 witness: a concrete successful both-present call yields distinct
identifiers and both files on disk. -/
theorem c9_success_distinct_and_saved_witness :
    (⟨"123e4567-e89b-12d3-a456-426614174000"⟩ : PostImagePath).uuid
      ≠ (⟨"00000000-0000-4000-8000-000000000000"⟩ : AvatarImagePath).uuid ∧
    ∃ p1 p2,
      ImagePath.path
        (⟨"123e4567-e89b-12d3-a456-426614174000"⟩ : PostImagePath) = some p1 ∧
      ImagePath.path
        (⟨"00000000-0000-4000-8000-000000000000"⟩ : AvatarImagePath) = some p2 ∧
      p1 ≠ p2 ∧
      p1 ∈ ({ wEx with
        fs := ["./images/avatars/00/00/00000000-0000-4000-8000-000000000000.png",
               "./images/posts/12/3e/123e4567-e89b-12d3-a456-426614174000.png"],
        nextUuid := 2 } : World).fs ∧
      p2 ∈ ({ wEx with
        fs := ["./images/avatars/00/00/00000000-0000-4000-8000-000000000000.png",
               "./images/posts/12/3e/123e4567-e89b-12d3-a456-426614174000.png"],
        nextUuid := 2 } : World).fs :=
  c9_success_distinct_and_saved [1, 2] "http://pics.example/avatar.png" wEx
    ⟨"123e4567-e89b-12d3-a456-426614174000"⟩
    ⟨"00000000-0000-4000-8000-000000000000"⟩
    { wEx with
      fs := ["./images/avatars/00/00/00000000-0000-4000-8000-000000000000.png",
             "./images/posts/12/3e/123e4567-e89b-12d3-a456-426614174000.png"],
      nextUuid := 2 }
    (by decide) (by rfl)

/-- C10: in the earlier revision, `Database::save` mints a fresh UUID and
persists it exactly when the corresponding URL field is present; the
filesystem is untouched, and the persisted row does not depend on the
network, the decoder, or the file-writing oracle at all — no download, no
validation, no byte written, so invalid input is never rejected and a
persisted identifier has no corresponding stored file.  The route handler
`create_post` answers `201 Created` with that row. -/
theorem c10_sql_save_mints_without_io (today : Nat)
    (req : SqlRev.BlogPostCreateRequest) (w : World) :
    ((SqlRev.Database.save today req w).1.image_uuid.isSome
      = req.image_url.isSome) ∧
    ((SqlRev.Database.save today req w).1.avatar_uuid.isSome
      = req.avatar_url.isSome) ∧
    ((SqlRev.Database.save today req w).2.fs = w.fs) ∧
    (∀ net' pngDecode' fsave',
      (SqlRev.Database.save today req
        { w with net := net', pngDecode := pngDecode', fsave := fsave' }).1
        = (SqlRev.Database.save today req w).1) ∧
    (SqlRev.create_post today req w).1
      = (201, (SqlRev.Database.save today req w).1) := by
  rcases req with ⟨text, username, iu, au⟩
  rcases iu with _ | iurl <;> rcases au with _ | aurl <;>
    simp [SqlRev.Database.save, SqlRev.create_post]
